import Mathlib

/-!
Verification of the MasterCoinBot position-mirroring engine.

This file gives a shallow embedding, over exact rationals, of the parts of the
repository that the verified properties talk about:

* `copy_trader.py` — the quantity-scaling computation, the per-follower
  fan-out of `_copy_position_open`, the ledger write of `_save_trade`, and
  the close transition of `_update_trade_status`;
* `src/copy_trader.py` — the PnL computation of `handle_filled_master_order`;
* `src/database.py` — the `trades` table writes (`add_user_trade`) and the
  `get_user_statistics` query;
* `binance_ws_client.py` — the reconnect decision of `_run_websocket`.

Python floats are modelled as exact rationals; Python `round(x, 3)` is
modelled as round-half-even (banker's rounding) at three decimal places on
exact rationals.  The SQLite store is modelled as an in-memory list of rows;
the exchange gateway is modelled as an oracle saying whether each
`place_order` call succeeds or raises.
-/

/-- Round-half-even on exact rationals: nearest integer, ties to the even
integer.  This models the tie-breaking behaviour of Python's built-in
`round`. -/
def roundHalfEven (q : ℚ) : ℤ :=
  if q - ⌊q⌋ < 1/2 then ⌊q⌋
  else if (1:ℚ)/2 < q - ⌊q⌋ then ⌊q⌋ + 1
  else if Even ⌊q⌋ then ⌊q⌋ else ⌊q⌋ + 1

/-- Python `round(x, 3)` modelled on exact rationals: round-half-even at
three decimal places.  Used in `copy_trader.py` line 192,
`follower_amount = round(follower_amount, 3)`. -/
def pyRound3 (q : ℚ) : ℚ :=
  (roundHalfEven (q * 1000) : ℚ) / 1000

/-- Per-follower risk configuration, as read from the `users` row in
`CopyTrader._load_active_users` and stored in
`self.follower_clients[telegram_id]["settings"]`. -/
structure FollowerSettings where
  risk_factor : ℚ
  max_position_size : ℚ
  take_profit : ℚ
  stop_loss : ℚ
deriving DecidableEq, Repr

/-- An order successfully submitted through
`BinanceWebsocketClient.place_order` (symbol, side, order type, quantity and
the optional `price` / `stop_price` arguments). -/
structure Order where
  symbol : String
  side : String
  order_type : String
  quantity : ℚ
  price : Option ℚ
  stop_price : Option ℚ
deriving DecidableEq, Repr

/-- A row of the `trades` table created by `Database.init_db`
(`src/database.py` lines 75–95).  `id` is the AUTOINCREMENT primary key;
`pnl`, `pnl_percent`, `closed_at` and `master_trade_id` are nullable. -/
structure TradeRow where
  id : ℤ
  telegram_id : ℤ
  symbol : String
  position_side : String
  entry_price : ℚ
  size : ℚ
  status : String
  pnl : Option ℚ
  pnl_percent : Option ℚ
  closed_at : Option ℤ
  master_trade_id : Option ℤ
deriving DecidableEq, Repr

/-- The `trades` table together with the next AUTOINCREMENT id. -/
structure Ledger where
  rows : List TradeRow
  nextId : ℤ
deriving DecidableEq, Repr

/-- `Database.add_user_trade` (`src/database.py` lines 350–374): a plain
`INSERT INTO trades` of the caller-supplied column values, returning
`cursor.lastrowid`.  No uniqueness check of any kind is performed and the
schema declares no UNIQUE constraint on `(master_trade_id, telegram_id)`. -/
def add_user_trade (l : Ledger) (trade_data : TradeRow) : Ledger × ℤ :=
  ({ rows := l.rows ++ [{ trade_data with id := l.nextId }], nextId := l.nextId + 1 },
   l.nextId)

/-- Number of non-FAILED rows carrying a given
`(master_trade_id, telegram_id)` pair. -/
def nonFailedPairCount (rows : List TradeRow) (m : Option ℤ) (tid : ℤ) : ℕ :=
  (rows.filter fun r =>
    decide (r.master_trade_id = m ∧ r.telegram_id = tid ∧ r.status ≠ "FAILED")).length

/-- The quantity-scaling computation of `CopyTrader._copy_position_open`
(`copy_trader.py` lines 184–192): scale the master amount by the risk
factor, clamp the notional at `max_position_size`, then round to three
decimals. -/
def scaledFollowerAmount (s : FollowerSettings) (master_amount entry_price : ℚ) : ℚ :=
  let follower_amount := master_amount * s.risk_factor
  let clamped :=
    if s.max_position_size < |follower_amount * entry_price| then
      (s.max_position_size / entry_price) * (if 0 < follower_amount then 1 else -1)
    else follower_amount
  pyRound3 clamped

/-- Outcome oracle for the gateway calls made on behalf of one follower in
`_copy_position_open`: whether the opening MARKET order, the LIMIT
take-profit and the STOP_MARKET stop-loss calls succeed (`true`) or raise
(`false`). -/
structure GatewayOutcome where
  openOk : Bool
  tpOk : Bool
  slOk : Bool
deriving DecidableEq, Repr

/-- The body of the per-follower loop of `CopyTrader._copy_position_open`
(`copy_trader.py` lines 174–231).  Returns the orders successfully placed
for this follower and the `trades` rows inserted by `_save_trade`.  The
whole body sits in one `try`/`except` that only logs: if the opening order
raises, nothing is placed or recorded; the trade row is written right after
the opening order with `size = abs(follower_amount) * entry_price` and
status `OPEN`; a raise in the take-profit order skips the stop-loss order
but leaves the already-written row in place. -/
def copyPositionOpenFollower (tid : ℤ) (s : FollowerSettings)
    (symbol position_side : String) (master_amount entry_price : ℚ)
    (gw : GatewayOutcome) : List Order × List TradeRow :=
  let follower_amount := scaledFollowerAmount s master_amount entry_price
  let side := if position_side = "LONG" then "BUY" else "SELL"
  if gw.openOk then
    let opening : Order :=
      { symbol := symbol, side := side, order_type := "MARKET",
        quantity := |follower_amount|, price := none, stop_price := none }
    let row : TradeRow :=
      { id := 0, telegram_id := tid, symbol := symbol,
        position_side := position_side, entry_price := entry_price,
        size := |follower_amount| * entry_price, status := "OPEN",
        pnl := none, pnl_percent := none, closed_at := none,
        master_trade_id := none }
    let closing_side := if position_side = "LONG" then "SELL" else "BUY"
    let tp_price :=
      if position_side = "LONG" then entry_price * (1 + s.take_profit / 100)
      else entry_price * (1 - s.take_profit / 100)
    let sl_price :=
      if position_side = "LONG" then entry_price * (1 - s.stop_loss / 100)
      else entry_price * (1 + s.stop_loss / 100)
    let slOrders : List Order :=
      if 0 < s.stop_loss then
        if gw.slOk then
          [{ symbol := symbol, side := closing_side, order_type := "STOP_MARKET",
             quantity := |follower_amount|, price := none,
             stop_price := some sl_price }]
        else []
      else []
    let laterOrders : List Order :=
      if 0 < s.take_profit then
        if gw.tpOk then
          { symbol := symbol, side := closing_side, order_type := "LIMIT",
            quantity := |follower_amount|, price := some tp_price,
            stop_price := none } :: slOrders
        else []
      else slOrders
    (opening :: laterOrders, [row])
  else ([], [])

/-- The fan-out of `CopyTrader._copy_position_open` over
`self.follower_clients.items()`: each follower is processed by the loop body
above, with its own settings and its own gateway outcomes, inside a
per-follower `try`/`except`. -/
def copyPositionOpen (followers : List (ℤ × FollowerSettings))
    (gw : ℤ → GatewayOutcome) (symbol position_side : String)
    (master_amount entry_price : ℚ) :
    List (ℤ × (List Order × List TradeRow)) :=
  followers.map fun f =>
    (f.1, copyPositionOpenFollower f.1 f.2 symbol position_side
            master_amount entry_price (gw f.1))

/-- `CopyTrader._update_trade_status` (`copy_trader.py` lines 287–319):
`UPDATE trades SET status = ?, closed_at = CURRENT_TIMESTAMP [, pnl = ?]
[, pnl_percent = ?] WHERE telegram_id = ? AND symbol = ? AND status =
'OPEN'`.  The `pnl` / `pnl_percent` columns are only written when the
corresponding optional argument is not `None`. -/
def updateTradeStatus (trades : List TradeRow) (tid : ℤ) (symbol status : String)
    (pnl pnl_percent : Option ℚ) (now : ℤ) : List TradeRow :=
  trades.map fun t =>
    if t.telegram_id = tid ∧ t.symbol = symbol ∧ t.status = "OPEN" then
      { t with status := status, closed_at := some now,
               pnl := match pnl with | some p => some p | none => t.pnl,
               pnl_percent :=
                 match pnl_percent with | some p => some p | none => t.pnl_percent }
    else t

/-- The PnL computation of `CopyTrader.handle_filled_master_order`
(`src/copy_trader.py` lines 317–331): returns `(pnl, pnl_percent)` recorded
when a filled order closes an OPEN master trade.  For LONG:
`pnl = executed_qty * (avg_price - entry_price)` and
`pnl_percent = ((avg_price / entry_price) - 1) * 100`.  For SHORT:
`pnl = executed_qty * (entry_price - avg_price)` and
`pnl_percent = ((entry_price / avg_price) - 1) * 100`. -/
def handleFilledClosePnl (position_side : String)
    (entry_price avg_price executed_qty : ℚ) : ℚ × ℚ :=
  if position_side = "LONG" then
    (executed_qty * (avg_price - entry_price), (avg_price / entry_price - 1) * 100)
  else
    (executed_qty * (entry_price - avg_price), (entry_price / avg_price - 1) * 100)

/-- The winning-trade test of `Database.get_user_statistics`:
`SELECT COUNT(*) FROM trades WHERE telegram_id = ? AND pnl > 0` — rows with
NULL `pnl` do not satisfy `pnl > 0`; no condition on `status`. -/
def isWinning (t : TradeRow) : Bool :=
  match t.pnl with
  | some p => decide (0 < p)
  | none => false

/-- The scalar statistics returned by `Database.get_user_statistics`.  The
`best_trade` / `worst_trade` components of the returned dict are plain
`SELECT ... ORDER BY pnl LIMIT 1` rows that involve no arithmetic and are
not part of the verified properties, so they are not modelled here. -/
structure UserStatistics where
  total_trades : ℕ
  winning_trades : ℕ
  win_rate : ℚ
  total_profit : ℚ
  avg_profit : ℚ
deriving DecidableEq, Repr

/-- `Database.get_user_statistics` (`src/database.py` lines 473–522):
`total_trades` counts all of the user's rows; `winning_trades` counts those
with `pnl > 0`; `win_rate = (winning_trades / total_trades) * 100` guarded
by `if total_trades > 0 else 0`; `total_profit = SUM(pnl) or 0` (SQL `SUM`
skips NULLs and yields NULL on an empty set, turned into `0` by `or 0`);
`avg_profit = total_profit / total_trades` with the same guard. -/
def get_user_statistics (trades : List TradeRow) (tid : ℤ) : UserStatistics :=
  let user_trades := trades.filter fun t => decide (t.telegram_id = tid)
  let total_trades := user_trades.length
  let winning_trades := (user_trades.filter isWinning).length
  let win_rate : ℚ :=
    if 0 < total_trades then ((winning_trades : ℚ) / (total_trades : ℚ)) * 100 else 0
  let total_profit : ℚ := (user_trades.filterMap TradeRow.pnl).sum
  let avg_profit : ℚ :=
    if 0 < total_trades then total_profit / (total_trades : ℚ) else 0
  { total_trades := total_trades, winning_trades := winning_trades,
    win_rate := win_rate, total_profit := total_profit, avg_profit := avg_profit }

/-- What the websocket loop decides to do after one connection attempt
finishes. -/
inductive WsAction where
  | reconnectAfter (delaySeconds : ℕ)
  | stop
deriving DecidableEq, Repr

/-- One iteration of the reconnect loop of
`BinanceWebsocketClient._run_websocket` (`binance_ws_client.py` lines
110–120).  `errorRaised` is the exception message raised by
`_connect_and_subscribe`, if any; the `except` clause logs it and invokes
the `on_error` callback (first component of the result), and the loop then
unconditionally retries after a fixed 5-second sleep whenever
`keep_running` is still set — the error's content is never inspected, so
authentication failures are retried exactly like transient ones. -/
def runWebsocketIteration (keep_running : Bool) (errorRaised : Option String) :
    Bool × WsAction :=
  (errorRaised.isSome, if keep_running then WsAction.reconnectAfter 5 else WsAction.stop)

theorem abs_roundHalfEven_sub (q : ℚ) : |(roundHalfEven q : ℚ) - q| ≤ 1/2 := by
  have h0 : (⌊q⌋ : ℚ) ≤ q := Int.floor_le q
  have h1 : q < ⌊q⌋ + 1 := Int.lt_floor_add_one q
  unfold roundHalfEven
  split_ifs with ha hb hc
  · rw [abs_le]; constructor <;> linarith
  · rw [abs_le]; push_cast; constructor <;> linarith
  · rw [abs_le]; constructor <;> linarith
  · rw [abs_le]; push_cast; constructor <;> linarith

theorem abs_pyRound3_sub (q : ℚ) : |pyRound3 q - q| ≤ 1/2000 := by
  have h := abs_roundHalfEven_sub (q * 1000)
  unfold pyRound3
  have heq : (roundHalfEven (q * 1000) : ℚ) / 1000 - q
      = ((roundHalfEven (q * 1000) : ℚ) - q * 1000) / 1000 := by ring
  rw [heq, abs_div, abs_of_pos (by norm_num : (0:ℚ) < 1000)]
  linarith

theorem pyRound3_abs_le (c : ℚ) : |pyRound3 c| ≤ |c| + 1/2000 := by
  have h := abs_pyRound3_sub c
  calc |pyRound3 c| = |c + (pyRound3 c - c)| := by ring_nf
    _ ≤ |c| + |pyRound3 c - c| := abs_add _ _
    _ ≤ |c| + 1/2000 := by linarith

theorem clamped_notional_le (maxsz ep raw : ℚ) (hmax : 0 < maxsz) (hep : 0 < ep) :
    |(if maxsz < |raw * ep| then (maxsz / ep) * (if 0 < raw then 1 else -1)
      else raw)| * ep ≤ maxsz := by
  split_ifs with hclamp hsgn
  · rw [mul_one, abs_of_pos (div_pos hmax hep), div_mul_cancel₀ _ (ne_of_gt hep)]
  · rw [abs_mul, abs_neg, abs_one, mul_one, abs_of_pos (div_pos hmax hep),
       div_mul_cancel₀ _ (ne_of_gt hep)]
  · calc |raw| * ep = |raw * ep| := by rw [abs_mul, abs_of_pos hep]
      _ ≤ maxsz := le_of_not_lt hclamp

/-- C2: for every follower configuration with positive risk factor and
positive position-size cap and every entry price greater than zero, the
scaled, clamped and 3-decimal-rounded quantity has notional
`|quantity| * entry_price` at most `max_position_size` plus the notional
contribution of the rounding step (at most half a thousandth of a unit of
the base asset, i.e. `entry_price * (1/2000)`). -/
theorem scaledFollowerAmount_notional_bound (s : FollowerSettings)
    (master_amount entry_price : ℚ)
    (hrisk : 0 < s.risk_factor) (hmax : 0 < s.max_position_size)
    (hentry : 0 < entry_price) :
    |scaledFollowerAmount s master_amount entry_price| * entry_price
      ≤ s.max_position_size + entry_price * (1/2000) := by
  have hrfl : scaledFollowerAmount s master_amount entry_price
      = pyRound3 (if s.max_position_size
            < |master_amount * s.risk_factor * entry_price| then
          (s.max_position_size / entry_price)
            * (if 0 < master_amount * s.risk_factor then 1 else -1)
        else master_amount * s.risk_factor) := rfl
  rw [hrfl]
  have hcb := clamped_notional_le s.max_position_size entry_price
    (master_amount * s.risk_factor) hmax hentry
  have habs := pyRound3_abs_le (if s.max_position_size
      < |master_amount * s.risk_factor * entry_price| then
    (s.max_position_size / entry_price)
      * (if 0 < master_amount * s.risk_factor then 1 else -1)
    else master_amount * s.risk_factor)
  calc |pyRound3 _| * entry_price
      ≤ (|(if s.max_position_size
            < |master_amount * s.risk_factor * entry_price| then
          (s.max_position_size / entry_price)
            * (if 0 < master_amount * s.risk_factor then 1 else -1)
        else master_amount * s.risk_factor)| + 1/2000) * entry_price :=
        mul_le_mul_of_nonneg_right habs (le_of_lt hentry)
    _ ≤ s.max_position_size + entry_price * (1/2000) := by
        rw [add_mul]
        have : (1:ℚ)/2000 * entry_price = entry_price * (1/2000) := by ring
        rw [this]
        exact add_le_add_right hcb _

/-- Witness for C2 at the spec's own scenario: risk factor `0.1`, cap
`3000` USDT, master amount `1.0` at entry price `50000`. -/
theorem scaledFollowerAmount_notional_bound_witness :
    (0:ℚ) < 1/10 ∧ (0:ℚ) < 3000 ∧ (0:ℚ) < 50000
    ∧ |scaledFollowerAmount ⟨1/10, 3000, 0, 0⟩ 1 50000| * 50000
        ≤ 3000 + 50000 * (1/2000) :=
  ⟨by norm_num, by norm_num, by norm_num,
   scaledFollowerAmount_notional_bound ⟨1/10, 3000, 0, 0⟩ 1 50000
     (by norm_num) (by norm_num) (by norm_num)⟩

/-- C1 counterexample: starting from a ledger that already holds a
non-FAILED follower trade for `(master_trade_id = 1, telegram_id = 42)`,
`add_user_trade` for the same pair inserts a second row — afterwards two
non-FAILED rows share the pair — and returns the fresh id `2`, not the
existing record's id `1`. -/
theorem add_user_trade_duplicate_pair :
    nonFailedPairCount
      (add_user_trade
        { rows := [{ id := 1, telegram_id := 42, symbol := "BTCUSDT",
                     position_side := "LONG", entry_price := 50000, size := 3000,
                     status := "OPEN", pnl := none, pnl_percent := none,
                     closed_at := none, master_trade_id := some 1 }],
          nextId := 2 }
        { id := 0, telegram_id := 42, symbol := "BTCUSDT",
          position_side := "LONG", entry_price := 50000, size := 3000,
          status := "OPEN", pnl := none, pnl_percent := none,
          closed_at := none, master_trade_id := some 1 }).1.rows (some 1) 42 = 2
    ∧ (add_user_trade
        { rows := [{ id := 1, telegram_id := 42, symbol := "BTCUSDT",
                     position_side := "LONG", entry_price := 50000, size := 3000,
                     status := "OPEN", pnl := none, pnl_percent := none,
                     closed_at := none, master_trade_id := some 1 }],
          nextId := 2 }
        { id := 0, telegram_id := 42, symbol := "BTCUSDT",
          position_side := "LONG", entry_price := 50000, size := 3000,
          status := "OPEN", pnl := none, pnl_percent := none,
          closed_at := none, master_trade_id := some 1 }).2 ≠ 1 := by
  constructor
  · simp [add_user_trade, nonFailedPairCount]
  · simp [add_user_trade]

/-- C1 (amended): `add_user_trade` is an unconditional insert.  It always
appends one new row (with the fresh AUTOINCREMENT id) and returns that new
id, whether or not a non-FAILED row with the same
`(master_trade_id, telegram_id)` pair already exists; in particular, when
the inserted row itself is non-FAILED, the count of non-FAILED rows with its
pair grows by one, so the pair is not kept unique. -/
theorem add_user_trade_always_inserts (l : Ledger) (r : TradeRow) :
    (add_user_trade l r).1.rows.length = l.rows.length + 1
    ∧ (add_user_trade l r).2 = l.nextId
    ∧ ∀ m tid, nonFailedPairCount (add_user_trade l r).1.rows m tid
        = nonFailedPairCount l.rows m tid
          + (if r.master_trade_id = m ∧ r.telegram_id = tid ∧ r.status ≠ "FAILED"
             then 1 else 0) := by
  refine ⟨by simp [add_user_trade], rfl, fun m tid => ?_⟩
  simp only [add_user_trade, nonFailedPairCount, List.filter_append,
    List.length_append]
  congr 1
  by_cases h : r.master_trade_id = m ∧ r.telegram_id = tid ∧ r.status ≠ "FAILED"
  · simp [h]
  · simp [h]

theorem scaled_small_risk_eval :
    scaledFollowerAmount ⟨1/10000, 3000, 0, 0⟩ 1 50000 = 0 := by
  norm_num [scaledFollowerAmount, pyRound3, roundHalfEven, abs_of_pos]

theorem scaled_zero_risk_eval :
    scaledFollowerAmount ⟨0, 3000, 0, 0⟩ 1 50000 = 0 := by
  norm_num [scaledFollowerAmount, pyRound3, roundHalfEven]

/-- C3 counterexample: follower with risk factor `0.0001` and cap `3000`
for a master LONG of `1.0` at entry price `50000`.  The scaled quantity
rounds to `0` at three decimals, yet the loop body still places one MARKET
order (of quantity `0`) and still inserts one ledger row for that
follower/event — there is no zero-quantity skip in
`_copy_position_open`. -/
theorem zero_quantity_not_skipped :
    scaledFollowerAmount ⟨1/10000, 3000, 0, 0⟩ 1 50000 = 0
    ∧ (copyPositionOpenFollower 42 ⟨1/10000, 3000, 0, 0⟩ "BTCUSDT" "LONG" 1 50000
        ⟨true, true, true⟩).1.length = 1
    ∧ (copyPositionOpenFollower 42 ⟨1/10000, 3000, 0, 0⟩ "BTCUSDT" "LONG" 1 50000
        ⟨true, true, true⟩).2.length = 1 := by
  refine ⟨scaled_small_risk_eval, ?_, ?_⟩ <;>
    simp [copyPositionOpenFollower, scaled_small_risk_eval]

/-- C3 (amended): when the scaled quantity rounds to zero the follower is
not skipped — whenever the gateway accepts the opening call, the loop body
still emits the opening MARKET order, with quantity `0`, and still inserts
one OPEN ledger row for that follower/event, with size `0`. -/
theorem copyPositionOpenFollower_zero_qty (tid : ℤ) (s : FollowerSettings)
    (symbol position_side : String) (master_amount entry_price : ℚ)
    (gw : GatewayOutcome) (hopen : gw.openOk = true)
    (hzero : scaledFollowerAmount s master_amount entry_price = 0) :
    ((copyPositionOpenFollower tid s symbol position_side master_amount
        entry_price gw).1.head?).map Order.quantity = some 0
    ∧ (copyPositionOpenFollower tid s symbol position_side master_amount
        entry_price gw).2
      = [{ id := 0, telegram_id := tid, symbol := symbol,
           position_side := position_side, entry_price := entry_price,
           size := 0, status := "OPEN", pnl := none, pnl_percent := none,
           closed_at := none, master_trade_id := none }] := by
  constructor <;> simp [copyPositionOpenFollower, hopen, hzero]

/-- Witness for C3's amended theorem: a follower with risk factor `0`
(scaled quantity exactly `0`) still gets a quantity-`0` MARKET order and a
size-`0` OPEN ledger row. -/
theorem copyPositionOpenFollower_zero_qty_witness :
    (GatewayOutcome.mk true true true).openOk = true
    ∧ scaledFollowerAmount ⟨0, 3000, 0, 0⟩ 1 50000 = 0
    ∧ (((copyPositionOpenFollower 42 ⟨0, 3000, 0, 0⟩ "BTCUSDT" "LONG" 1 50000
          ⟨true, true, true⟩).1.head?).map Order.quantity = some 0
      ∧ (copyPositionOpenFollower 42 ⟨0, 3000, 0, 0⟩ "BTCUSDT" "LONG" 1 50000
          ⟨true, true, true⟩).2
        = [{ id := 0, telegram_id := 42, symbol := "BTCUSDT",
             position_side := "LONG", entry_price := 50000,
             size := 0, status := "OPEN", pnl := none, pnl_percent := none,
             closed_at := none, master_trade_id := none }]) :=
  ⟨rfl, scaled_zero_risk_eval,
   copyPositionOpenFollower_zero_qty 42 ⟨0, 3000, 0, 0⟩ "BTCUSDT" "LONG" 1 50000
     ⟨true, true, true⟩ rfl scaled_zero_risk_eval⟩

theorem scaled_scenario_eval :
    scaledFollowerAmount ⟨1/10, 3000, 0, 0⟩ 1 50000 = 3/50 := by
  norm_num [scaledFollowerAmount, pyRound3, roundHalfEven, abs_of_pos]

/-- C5 counterexample: in the spec's scenario (master LONG `1.0` BTCUSDT at
`50000`, follower with risk factor `0.1` and cap `3000`), the single ledger
row is created with `size = 3000` — the USDT notional
`abs(follower_amount) * entry_price` written by `_save_trade` — and not the
rounded base-asset quantity `0.060` the claim states. -/
theorem follower_trade_size_is_notional :
    ((copyPositionOpenFollower 42 ⟨1/10, 3000, 0, 0⟩ "BTCUSDT" "LONG" 1 50000
        ⟨true, true, true⟩).2.map TradeRow.size) = [3000]
    ∧ (3000 : ℚ) ≠ 3/50 := by
  constructor
  · unfold copyPositionOpenFollower
    rw [scaled_scenario_eval]
    norm_num [abs_div]
  · norm_num

/-- C5 (amended): in the scenario, exactly one BUY MARKET order with
quantity `0.060` is placed for the follower and exactly one OPEN ledger row
is created with entry price `50000` — but with `size = 3000`, the USDT
notional of the copy, not the base-asset quantity. -/
theorem open_scenario_result :
    copyPositionOpenFollower 42 ⟨1/10, 3000, 0, 0⟩ "BTCUSDT" "LONG" 1 50000
        ⟨true, true, true⟩
      = ([{ symbol := "BTCUSDT", side := "BUY", order_type := "MARKET",
            quantity := 3/50, price := none, stop_price := none }],
         [{ id := 0, telegram_id := 42, symbol := "BTCUSDT",
            position_side := "LONG", entry_price := 50000, size := 3000,
            status := "OPEN", pnl := none, pnl_percent := none,
            closed_at := none, master_trade_id := none }]) := by
  unfold copyPositionOpenFollower
  rw [scaled_scenario_eval]
  norm_num [abs_div]

/-- C4 counterexample: for a SHORT closed at half the entry price
(entry `100`, exit `50`, quantity `1`), `handle_filled_master_order`
records `pnl_percent = ((entry / exit) - 1) * 100 = 100`, whereas the
claimed formula `(entryPrice - exitPrice) / entryPrice * 100` gives `50` —
the code measures the percentage move relative to the exit price, not the
entry price. -/
theorem short_pnl_percent_counterexample :
    (handleFilledClosePnl "SHORT" 100 50 1).2 = 100
    ∧ ((100 : ℚ) - 50) / 100 * 100 = 50
    ∧ (handleFilledClosePnl "SHORT" 100 50 1).2 ≠ ((100 : ℚ) - 50) / 100 * 100 := by
  have h : ¬("SHORT" : String) = "LONG" := by decide
  refine ⟨?_, by norm_num, ?_⟩ <;> norm_num [handleFilledClosePnl, h]

/-- C4 (amended): on close, the recorded pnl is
`executed_qty * (exit - entry)` for LONG and `executed_qty * (entry - exit)`
for SHORT, and `pnl_percent` is the sign-adjusted percentage move — relative
to the entry price for LONG, but relative to the *exit* price for SHORT:
`(entry - exit) / exit * 100`. -/
theorem handleFilledClosePnl_formulas (entry_price avg_price executed_qty : ℚ)
    (hentry : entry_price ≠ 0) (havg : avg_price ≠ 0) :
    handleFilledClosePnl "LONG" entry_price avg_price executed_qty
      = (executed_qty * (avg_price - entry_price),
         (avg_price - entry_price) / entry_price * 100)
    ∧ handleFilledClosePnl "SHORT" entry_price avg_price executed_qty
      = (executed_qty * (entry_price - avg_price),
         (entry_price - avg_price) / avg_price * 100) := by
  unfold handleFilledClosePnl
  constructor
  · rw [if_pos rfl]
    refine Prod.ext rfl ?_
    field_simp
  · rw [if_neg (by decide : ¬("SHORT" : String) = "LONG")]
    refine Prod.ext rfl ?_
    field_simp

/-- Witness for C4's amended theorem at the spec's close scenario: LONG of
`0.060` closed at `51000` from entry `50000` (pnl `60`, `2` percent). -/
theorem handleFilledClosePnl_formulas_witness :
    (50000:ℚ) ≠ 0 ∧ (51000:ℚ) ≠ 0
    ∧ (handleFilledClosePnl "LONG" 50000 51000 (3/50)
        = ((3:ℚ)/50 * (51000 - 50000), (51000 - 50000) / 50000 * 100)
      ∧ handleFilledClosePnl "SHORT" 50000 51000 (3/50)
        = ((3:ℚ)/50 * (50000 - 51000), (50000 - 51000) / 51000 * 100)) :=
  ⟨by norm_num, by norm_num,
   handleFilledClosePnl_formulas 50000 51000 (3/50) (by norm_num) (by norm_num)⟩

/-- C6: replaying a close is a no-op on the ledger.  The `UPDATE ... WHERE
status = 'OPEN'` of `_update_trade_status` sends every matching OPEN row to
CLOSED (second conjunct), and applying the same close a second time — even
with a later `CURRENT_TIMESTAMP` and different pnl arguments — leaves every
row of the once-updated ledger unchanged (first conjunct), so each affected
row transitions OPEN → CLOSED exactly once. -/
theorem updateTradeStatus_close_replay (trades : List TradeRow) (tid : ℤ)
    (symbol : String) (p1 q1 p2 q2 : Option ℚ) (t1 t2 : ℤ) :
    updateTradeStatus (updateTradeStatus trades tid symbol "CLOSED" p1 q1 t1)
        tid symbol "CLOSED" p2 q2 t2
      = updateTradeStatus trades tid symbol "CLOSED" p1 q1 t1
    ∧ ∀ i : ℕ,
        ((updateTradeStatus trades tid symbol "CLOSED" p1 q1 t1)[i]?).map
            TradeRow.status
          = (trades[i]?).map fun t =>
              if t.telegram_id = tid ∧ t.symbol = symbol ∧ t.status = "OPEN"
              then "CLOSED" else t.status := by
  constructor
  · unfold updateTradeStatus
    rw [List.map_map]
    apply List.map_congr_left
    intro t _
    by_cases h : t.telegram_id = tid ∧ t.symbol = symbol ∧ t.status = "OPEN"
    · have h2 : ¬(("CLOSED" : String) = "OPEN") := by decide
      simp only [Function.comp_apply, if_pos h]
      rw [if_neg (by simp [h2])]
    · simp only [Function.comp_apply, if_neg h]
  · intro i
    unfold updateTradeStatus
    rw [List.getElem?_map, Option.map_map]
    cases trades[i]? with
    | none => rfl
    | some t =>
      simp only [Option.map_some', Function.comp_apply]
      by_cases h : t.telegram_id = tid ∧ t.symbol = symbol ∧ t.status = "OPEN"
      · rw [if_pos h, if_pos h]
      · rw [if_neg h, if_neg h]

/-- C7: fault isolation of the fan-out.  Each follower's iteration of the
`_copy_position_open` loop sits in its own `try`/`except` and touches only
that follower's client and settings, so the orders placed and ledger rows
recorded for the follower at position `i` depend only on that follower's
own gateway outcomes: two gateway oracles that agree on follower `i` give
identical results at `i`, however they differ (errors, rejections) on every
other follower. -/
theorem copyPositionOpen_isolation (followers : List (ℤ × FollowerSettings))
    (gw1 gw2 : ℤ → GatewayOutcome) (symbol position_side : String)
    (master_amount entry_price : ℚ) (i : ℕ) (f : ℤ × FollowerSettings)
    (hf : followers[i]? = some f) (hgw : gw1 f.1 = gw2 f.1) :
    (copyPositionOpen followers gw1 symbol position_side master_amount
        entry_price)[i]?
      = (copyPositionOpen followers gw2 symbol position_side master_amount
          entry_price)[i]? := by
  unfold copyPositionOpen
  rw [List.getElem?_map, List.getElem?_map, hf]
  simp only [Option.map_some']
  rw [hgw]

/-- Witness for C7: two followers; the gateway rejects every call of
follower `1` under the first oracle and accepts everything under the
second; follower `2`'s result (at index `1`) is the same under both. -/
theorem copyPositionOpen_isolation_witness :
    ([(1, ⟨1, 1000, 0, 0⟩), (2, ⟨1, 1000, 0, 0⟩)] :
        List (ℤ × FollowerSettings))[1]? = some (2, ⟨1, 1000, 0, 0⟩)
    ∧ (fun tid => if tid = 1 then GatewayOutcome.mk false false false
          else ⟨true, true, true⟩) (2:ℤ)
        = (fun _ => (⟨true, true, true⟩ : GatewayOutcome)) (2:ℤ)
    ∧ (copyPositionOpen [(1, ⟨1, 1000, 0, 0⟩), (2, ⟨1, 1000, 0, 0⟩)]
        (fun tid => if tid = 1 then ⟨false, false, false⟩ else ⟨true, true, true⟩)
        "BTCUSDT" "LONG" 1 50000)[1]?
      = (copyPositionOpen [(1, ⟨1, 1000, 0, 0⟩), (2, ⟨1, 1000, 0, 0⟩)]
          (fun _ => ⟨true, true, true⟩) "BTCUSDT" "LONG" 1 50000)[1]? :=
  ⟨rfl, by norm_num,
   copyPositionOpen_isolation [(1, ⟨1, 1000, 0, 0⟩), (2, ⟨1, 1000, 0, 0⟩)]
     (fun tid => if tid = 1 then ⟨false, false, false⟩ else ⟨true, true, true⟩)
     (fun _ => ⟨true, true, true⟩) "BTCUSDT" "LONG" 1 50000 1
     (2, ⟨1, 1000, 0, 0⟩) rfl (by norm_num)⟩

/-- C8 counterexample: when the gateway rejects the opening order for a
follower (risk factor `0.1`, cap `3000`, master LONG `1.0` at `50000`),
the exception is caught and only logged — no ledger row at all is written
for that follower, and in particular no row with status FAILED. -/
theorem failed_dispatch_not_recorded :
    copyPositionOpenFollower 42 ⟨1/10, 3000, 0, 0⟩ "BTCUSDT" "LONG" 1 50000
        ⟨false, true, true⟩ = ([], [])
    ∧ ((copyPositionOpenFollower 42 ⟨1/10, 3000, 0, 0⟩ "BTCUSDT" "LONG" 1 50000
        ⟨false, true, true⟩).2.filter fun t => decide (t.status = "FAILED")) = [] := by
  constructor <;> simp [copyPositionOpenFollower]

/-- C8 (amended): whenever dispatching a follower's opening order fails,
the `except` clause of `_copy_position_open` only logs the error: no trade
row of any status — FAILED or otherwise — is recorded in the ledger for
that follower, so per-follower failures are not queryable via the ledger
(the `trades` schema's status comment lists only OPEN, CLOSED and
CANCELED). -/
theorem copyPositionOpenFollower_failure_silent (tid : ℤ) (s : FollowerSettings)
    (symbol position_side : String) (master_amount entry_price : ℚ)
    (tpOk slOk : Bool) :
    copyPositionOpenFollower tid s symbol position_side master_amount entry_price
      ⟨false, tpOk, slOk⟩ = ([], []) := by
  simp [copyPositionOpenFollower]

/-- C9: the reconnect loop of `_run_websocket` never inspects the error it
caught.  At the failing input — an authentication rejection raised while
`keep_running` is still set — the loop invokes `on_error` and then schedules
another connection attempt after the fixed 5-second sleep, exactly as it
does for every other error, instead of stopping and surfacing a fatal
per-account failure; there is no error message for which it stops while
running. -/
theorem auth_error_still_reconnects :
    runWebsocketIteration true (some "AuthenticationError: invalid credentials")
      = (true, WsAction.reconnectAfter 5)
    ∧ ∀ errorRaised : Option String,
        (runWebsocketIteration true errorRaised).2 = WsAction.reconnectAfter 5 := by
  exact ⟨rfl, fun _ => rfl⟩

/-- C10: `get_user_statistics` degrades safely and computes the win rate as
claimed.  For a user with no rows at all, every scalar statistic is `0` and
no division is performed; whenever the user has at least one row, the win
rate is `100 * winning / total`, where `winning` counts exactly the rows
with recorded `pnl > 0` — with no condition on `status`. -/
theorem get_user_statistics_spec (trades : List TradeRow) (tid : ℤ) :
    ((trades.filter fun t => decide (t.telegram_id = tid)) = [] →
      (get_user_statistics trades tid).total_trades = 0
      ∧ (get_user_statistics trades tid).win_rate = 0
      ∧ (get_user_statistics trades tid).total_profit = 0
      ∧ (get_user_statistics trades tid).avg_profit = 0)
    ∧ (0 < (get_user_statistics trades tid).total_trades →
        (get_user_statistics trades tid).win_rate
          = 100 * (((trades.filter fun t => decide (t.telegram_id = tid)).filter
                isWinning).length : ℚ)
              / ((get_user_statistics trades tid).total_trades : ℚ)) := by
  constructor
  · intro h
    simp [get_user_statistics, h]
  · intro h
    have htot : (get_user_statistics trades tid).total_trades
        = (trades.filter fun t => decide (t.telegram_id = tid)).length := rfl
    rw [htot] at h
    simp only [get_user_statistics, htot]
    rw [if_pos h]
    ring

/-- Two-row demonstration ledger for the statistics query: one winning
CLOSED row (`pnl = 60`) and one losing OPEN row (`pnl = -5`), both owned by
user `7`. -/
def demoStatsTrades : List TradeRow :=
  [{ id := 1, telegram_id := 7, symbol := "BTCUSDT", position_side := "LONG",
     entry_price := 50000, size := 3000, status := "CLOSED", pnl := some 60,
     pnl_percent := some 2, closed_at := some 0, master_trade_id := none },
   { id := 2, telegram_id := 7, symbol := "ETHUSDT", position_side := "SHORT",
     entry_price := 2000, size := 1000, status := "OPEN", pnl := some (-5),
     pnl_percent := none, closed_at := none, master_trade_id := none }]

/-- Witness for C10: the empty-ledger case at an empty trades list, and the
win-rate case at the two-row demonstration ledger. -/
theorem get_user_statistics_spec_witness :
    (([] : List TradeRow).filter fun t => decide (t.telegram_id = (7:ℤ))) = []
    ∧ 0 < (get_user_statistics demoStatsTrades 7).total_trades
    ∧ ((get_user_statistics [] 7).total_trades = 0
      ∧ (get_user_statistics [] 7).win_rate = 0
      ∧ (get_user_statistics [] 7).total_profit = 0
      ∧ (get_user_statistics [] 7).avg_profit = 0)
    ∧ (get_user_statistics demoStatsTrades 7).win_rate
        = 100 * (((demoStatsTrades.filter fun t =>
              decide (t.telegram_id = (7:ℤ))).filter isWinning).length : ℚ)
            / ((get_user_statistics demoStatsTrades 7).total_trades : ℚ) :=
  ⟨rfl, by norm_num [get_user_statistics, demoStatsTrades],
   (get_user_statistics_spec [] 7).1 rfl,
   (get_user_statistics_spec demoStatsTrades 7).2
     (by norm_num [get_user_statistics, demoStatsTrades])⟩
